import Mathlib

/-!
Verification of the ComfyUI bridge service (`src/main.py`) against its
specification.  The Python source is shallowly embedded: JSON values become
the inductive `JVal`, Python dicts become association lists with unique keys,
and the network / clock effects of each operation become explicit parameters
(transport outcomes as `Except`, the websocket event stream as a list of
timed receive outcomes, and the `uuid4` randomness source as a function
`Nat → Nat` giving the integer of the k-th generated UUID).
Unhandled Python exceptions (AttributeError / TypeError) are modelled as
`none` / a distinguished `pyError` outcome.
-/

set_option autoImplicit false

/-- A JSON value, as produced by `json.load` / `json.loads` in the source.
Python `None` (JSON `null`) is `JVal.null`; dicts keep insertion order as
association lists. -/
inductive JVal where
  | null : JVal
  | bool : Bool → JVal
  | num : Int → JVal
  | str : String → JVal
  | arr : List JVal → JVal
  | obj : List (String × JVal) → JVal

/-- Python `x == s` for a string literal `s`: values of other types compare
unequal, never raise. -/
def jvalIsStr (v : JVal) (s : String) : Bool :=
  match v with
  | .str t => t = s
  | _ => false

/-- Lookup `d[k]` on a Python dict (first binding wins; dict keys are unique). -/
def lookup : List (String × JVal) → String → Option JVal
  | [], _ => none
  | (k', v) :: rest, k => if k' = k then some v else lookup rest k

/-- Assignment `d[k] = v` on a Python dict: replace the binding in place if the key is
present (its position is preserved), otherwise append the new binding. -/
def setKey : List (String × JVal) → String → JVal → List (String × JVal)
  | [], k, v => [(k, v)]
  | (k', v') :: rest, k, v =>
    if k' = k then (k, v) :: rest else (k', v') :: setKey rest k v

/-- Whether `sub` is a leading segment of `l`. -/
def listIsPre {α : Type} [DecidableEq α] : List α → List α → Bool
  | [], _ => true
  | _ :: _, [] => false
  | a :: as, b :: bs => decide (a = b) && listIsPre as bs

/-- Whether `sub` occurs contiguously inside `l` (Python `sub in l` on
sequences; the empty segment always occurs). -/
def listHasSub {α : Type} [DecidableEq α] (sub : List α) : List α → Bool
  | [] => listIsPre sub []
  | a :: rest => listIsPre sub (a :: rest) || listHasSub sub rest

/-- Python `sub in s` on strings: contiguous substring test. -/
def containsSub (s sub : String) : Bool :=
  listHasSub sub.toList s.toList

/-- Python `d.get(k)`: absent keys and JSON `null` values both come back as
`None`, i.e. `none` here. -/
def pyGet (m : List (String × JVal)) (k : String) : Option JVal :=
  match lookup m k with
  | some .null => none
  | r => r

/-- Python `x == s` where `s` is a string and `x` the result of a `.get`:
only an equal string compares true. -/
def pyEqStr (v : Option JVal) (s : String) : Bool :=
  match v with
  | some (.str t) => t = s
  | _ => false

/-- Python truthiness test `not x` on the result of a `.get`: `None`, `False`,
`0`, the empty string and empty containers are falsy. -/
def pyFalsy : Option JVal → Bool
  | none => true
  | some .null => true
  | some (.bool b) => !b
  | some (.num n) => n = 0
  | some (.str s) => s = ""
  | some (.arr l) => l.isEmpty
  | some (.obj l) => l.isEmpty

/-- Python `str(x)` as used in f-strings.  The claims only ever reach this
with string values; the rendering of containers is abbreviated. -/
def jstr : Option JVal → String
  | some (.str s) => s
  | some (.num n) => toString n
  | some (.bool true) => "True"
  | some (.bool false) => "False"
  | some .null => "None"
  | some (.arr _) => "[...]"
  | some (.obj _) => "..."
  | none => "None"

/-! ## Workflow Mutator (`ComfyUIClient.modify_workflow`, lines 74-107)

`rands k` is the integer of the `k`-th `uuid.uuid4()` drawn during the call.
The result is `none` when the Python code raises an unhandled exception
(`.lower()` on a non-string `text` value, or `.get` / item assignment on a
non-dict `inputs` value). -/

/-- Reading `current_text.lower()` succeeds only on strings; the `.get("text", "")`
default makes an absent key the empty string, while a present non-string
value (including `null`) raises. -/
def textOf : Option JVal → Option String
  | none => some ""
  | some (.str s) => some s
  | some _ => none

/-- Python `s.lower()` (character-wise lowering; the substrings the source
tests against are ASCII). -/
def strLower (s : String) : String :=
  String.mk (s.toList.map Char.toLower)

/-- The test `"negative" in current_text.lower() or "bad" in current_text.lower()`. -/
def isNegText (s : String) : Bool :=
  containsSub (strLower s) "negative" || containsSub (strLower s) "bad"

/-- One iteration of the `modify_workflow` loop body for a node value `nd`,
with `k` uuid draws already made.  Returns the updated node value, whether
this node set the `modified` flag, and the new draw count; `none` models an
unhandled exception.  A node whose `inputs` key is absent has its prompt or
seed written into the fresh `.get("inputs", {})` default dict, which is
discarded, leaving the node unchanged (the flag is still set, and a sampler
node still consumes a uuid draw). -/
def modifyNode (pos neg : String) (rands : Nat → Nat) (k : Nat) (nd : JVal) :
    Option (JVal × Bool × Nat) :=
  match nd with
  | .obj m =>
    let ct := (lookup m "class_type").getD (.str "")
    if jvalIsStr ct "CLIPTextEncode" then
      match lookup m "inputs" with
      | none => some (.obj m, true, k)
      | some (.obj im) =>
        match textOf (lookup im "text") with
        | none => none
        | some s =>
          let newText := if isNegText s then neg else pos
          some (.obj (setKey m "inputs" (.obj (setKey im "text" (.str newText)))),
                true, k)
      | some _ => none
    else if jvalIsStr ct "KSampler" then
      match lookup m "inputs" with
      | none => some (.obj m, true, k + 1)
      | some (.obj im) =>
        some (.obj (setKey m "inputs"
                 (.obj (setKey im "seed" (.num (Int.ofNat (rands k % 2 ^ 32)))))),
              true, k + 1)
      | some _ => none
    else some (.obj m, false, k)
  | _ => some (nd, false, k)

/-- The `for node_id, node_data in workflow.items()` loop, threading the uuid
draw count and the `modified` flag. -/
def modifyGo (pos neg : String) (rands : Nat → Nat) :
    Nat → Bool → List (String × JVal) → Option (List (String × JVal) × Bool)
  | _, md, [] => some ([], md)
  | k, md, (nid, nd) :: rest =>
    match modifyNode pos neg rands k nd with
    | none => none
    | some (nd', b, k') =>
      match modifyGo pos neg rands k' (md || b) rest with
      | none => none
      | some (rest', mdf) => some ((nid, nd') :: rest', mdf)

/-- Function `ComfyUIClient.modify_workflow`: mutates the graph in place and returns
it, together with the final `modified` flag. -/
def modify_workflow (wf : List (String × JVal)) (pos neg : String)
    (rands : Nat → Nat) : Option (List (String × JVal) × Bool) :=
  modifyGo pos neg rands 0 false wf

/-- The `"Warning: No CLIPTextEncode or KSampler nodes found"` message is
printed exactly when the call returns normally with the flag unset. -/
def missingNodesWarning (wf : List (String × JVal)) (pos neg : String)
    (rands : Nat → Nat) : Bool :=
  match modify_workflow wf pos neg rands with
  | some (_, md) => !md
  | none => false

/-! ## Completion Watcher (`ComfyUIClient.wait_for_completion`, lines 131-175)

The websocket is modelled as a list of receive outcomes: either the 5-unit
per-receive `asyncio.wait_for` timeout fires (`rto`), or a raw message
arrives after `d` time units.  A raw message is either invalid JSON or a
parsed `JVal`.  The clock starts at 0 when watching begins; the overall
deadline check `now - start > timeout` runs at the top of every iteration.
When the given outcomes are exhausted the loop keeps polling, each poll
timing out after 5 units, until the deadline fires. -/

/-- A message received from the event stream: raw bytes that either fail
`json.loads` or parse to a JSON value. -/
inductive RawMsg where
  | invalid : RawMsg
  | json : JVal → RawMsg

/-- One receive outcome on the websocket. -/
inductive Recv where
  | rto : Recv
  | msg : Nat → RawMsg → Recv

/-- Outcome of processing a single received message (loop body, lines
145-164). -/
inductive StepOut where
  | cont : StepOut
  | completed : StepOut
  | failed : JVal → StepOut
  | wsError : StepOut

/-- Final outcome of the watch.  `completed` is `return True` to the caller;
`failed` is the 500 "ComfyUI execution error" carrying the event's data
payload; `timedOut` is the 504 deadline error; `wsError` is the 500
"WebSocket error" wrapping any other exception. -/
inductive WatchResult where
  | completed : WatchResult
  | failed : JVal → WatchResult
  | timedOut : WatchResult
  | wsError : WatchResult

/-- Processing of one received raw message.  Invalid JSON raises in
`json.loads`; a non-dict value raises in `.get` — both land in the outer
`except Exception` handler (wsError).  An `"executing"` event completes the
watch when its `prompt_id` equals the watched id and its `node` is absent or
null; an `"execution_error"` event for the watched id fails the watch with
the event's data payload; everything else continues the loop.  A `data`
field that is present but not a dict raises in `.get` (wsError); an absent
`data` field defaults to the empty dict and the event is ignored. -/
def handle_message (pid : String) : RawMsg → StepOut
  | .invalid => .wsError
  | .json v =>
    match v with
    | .obj m =>
      if pyEqStr (pyGet m "type") "executing" then
        match lookup m "data" with
        | none => .cont
        | some (.obj em) =>
          if pyEqStr (pyGet em "prompt_id") pid && (pyGet em "node").isNone then
            .completed
          else .cont
        | some _ => .wsError
      else if pyEqStr (pyGet m "type") "execution_error" then
        match lookup m "data" with
        | none => .cont
        | some (.obj em) =>
          if pyEqStr (pyGet em "prompt_id") pid then .failed (.obj em) else .cont
        | some _ => .wsError
      else .cont
    | _ => .wsError

/-- The watch loop once the supplied receive outcomes are exhausted: every
further receive times out after 5 units until the overall deadline fires. -/
def watchDrain (T now : Nat) : WatchResult :=
  if h : now > T then .timedOut else watchDrain T (now + 5)
termination_by T + 1 - now
decreasing_by omega

/-- The `while True` watch loop (lines 139-167): deadline check at the top,
then one receive; a per-receive timeout advances the clock 5 units and
continues, a message advances it by the receive's duration and is processed
by `handle_message`. -/
def watchGo (pid : String) (T : Nat) : Nat → List Recv → WatchResult
  | now, [] => watchDrain T now
  | now, e :: rest =>
    if now > T then .timedOut
    else
      match e with
      | .rto => watchGo pid T (now + 5) rest
      | .msg d raw =>
        match handle_message pid raw with
        | .cont => watchGo pid T (now + d) rest
        | .completed => .completed
        | .failed p => .failed p
        | .wsError => .wsError

/-- Function `ComfyUIClient.wait_for_completion`: watch the event stream for the job
`pid` with overall deadline `T` (default 300), starting the clock at 0. -/
def wait_for_completion (pid : String) (T : Nat) (events : List Recv) :
    WatchResult :=
  watchGo pid T 0 events

/-- A receive outcome that leaves the loop running: a per-receive timeout, or
a message whose processing continues the loop. -/
def nonTerminal (pid : String) : Recv → Bool
  | .rto => true
  | .msg _ raw =>
    match handle_message pid raw with
    | .cont => true
    | _ => false

/-- Clock advance contributed by a list of receive outcomes. -/
def elapsedOf : List Recv → Nat
  | [] => 0
  | .rto :: rest => 5 + elapsedOf rest
  | .msg d _ :: rest => d + elapsedOf rest

/-! ## Job Submitter and Result Fetcher
(`queue_prompt` lines 109-129, `get_history` lines 177-187,
`download_image` lines 189-236)

Transport effects are parameters: `Except Unit JVal` is the outcome of an
HTTP request (`.error` covers connection failure, timeout and the non-2xx
statuses surfaced by `raise_for_status`, all of which `httpx.HTTPError`
catches; `.ok` carries the parsed response body). -/

/-- Error classification at the HTTP boundary.  `notFound` is status 404,
`internalError` status 500, `serviceUnavailable` status 503; `pyError` is an
unhandled Python exception, which the endpoint handler wraps as a generic
500 "Unexpected error". -/
inductive Err where
  | notFound : Err
  | internalError : Err
  | serviceUnavailable : Err
  | pyError : Err
deriving DecidableEq

/-- HTTP status code each classified failure surfaces with. -/
def Err.status : Err → Nat
  | .notFound => 404
  | .internalError => 500
  | .serviceUnavailable => 503
  | .pyError => 500

/-- Function `ComfyUIClient.queue_prompt`: transport failure is a 503
(ServiceUnavailable); a 2xx body with a falsy `prompt_id` is a 500; a
non-dict body raises in `.get` (unhandled). -/
def queue_prompt (resp : Except Unit JVal) : Except Err String :=
  match resp with
  | .error _ => .error .serviceUnavailable
  | .ok body =>
    match body with
    | .obj bm =>
      if pyFalsy (pyGet bm "prompt_id") then .error .internalError
      else .ok (jstr (pyGet bm "prompt_id"))
    | _ => .error .pyError

/-- Function `ComfyUIClient.get_history`: transport failure is a 500
("Failed to get history"). -/
def get_history (resp : Except Unit JVal) : Except Err JVal :=
  match resp with
  | .error _ => .error .internalError
  | .ok v => .ok v

/-- The scan over `outputs.items()` for the first output with a non-empty
`images` list (lines 197-201).  Outputs without an `images` key, or whose
`images` value is an empty container or empty string, are skipped (their
`len` is 0 or the key test fails); any other non-list `images` value, and
any non-dict output the `in` test cannot index, raises. -/
def firstImage : List (String × JVal) → Except Err (Option JVal)
  | [] => .ok none
  | (_, out) :: rest =>
    match out with
    | .obj om =>
      match lookup om "images" with
      | none => firstImage rest
      | some (.arr []) => firstImage rest
      | some (.arr (x :: _)) => .ok (some x)
      | some (.str "") => firstImage rest
      | some (.obj []) => firstImage rest
      | some _ => .error .pyError
    | .str s => if containsSub s "images" then .error .pyError else firstImage rest
    | .arr l =>
      if l.any (fun v => jvalIsStr v "images") then .error .pyError
      else firstImage rest
    | _ => .error .pyError

/-- Function `ComfyUIClient.download_image`: fetch history, locate the job's first
image reference, download it and return the stored path
`output_dir/{prompt_id}_{filename}`.  `historyResp` is the transport outcome
of the history GET, `viewResp` that of the `/view` GET.  The
`if not image_info:` truthiness test (line 203) fires both when the scan
found nothing and when the found first reference is falsy (an empty dict or
string, zero, false, null), giving the 404 in either case; only a truthy
non-dict reference reaches the `.get` and raises. -/
def download_image (pid : String) (output_dir : String)
    (historyResp : Except Unit JVal) (viewResp : Except Unit Unit) :
    Except Err String :=
  match get_history historyResp with
  | .error e => .error e
  | .ok history =>
    match history with
    | .obj hm =>
      match lookup hm pid with
      | none => .error .notFound
      | some entry =>
        match entry with
        | .obj em =>
          match (lookup em "outputs").getD (.obj []) with
          | .obj os =>
            match firstImage os with
            | .error e => .error e
            | .ok none => .error .notFound
            | .ok (some imageInfo) =>
              if pyFalsy (some imageInfo) then .error .notFound
              else
                match imageInfo with
                | .obj fi =>
                  if pyFalsy (pyGet fi "filename") then .error .internalError
                  else
                    match viewResp with
                    | .error _ => .error .internalError
                    | .ok _ =>
                      .ok (output_dir ++ "/" ++ pid ++ "_" ++
                           jstr (pyGet fi "filename"))
                | _ => .error .pyError
          | _ => .error .pyError
        | _ => .error .pyError
    | .str s =>
      if containsSub s pid then .error .pyError else .error .notFound
    | .arr l =>
      if l.any (fun v => jvalIsStr v pid) then .error .pyError
      else .error .notFound
    | _ => .error .pyError

example :
    modify_workflow
      [("6", .obj [("class_type", .str "CLIPTextEncode"),
                   ("inputs", .obj [("text", .str "bad hands, blurry")])]),
       ("5", .obj [("class_type", .str "CLIPTextEncode"),
                   ("inputs", .obj [("text", .str "a photo of a cat")])])]
      "A" "B" (fun _ => 0) =
    some ([("6", .obj [("class_type", .str "CLIPTextEncode"),
                       ("inputs", .obj [("text", .str "B")])]),
           ("5", .obj [("class_type", .str "CLIPTextEncode"),
                       ("inputs", .obj [("text", .str "A")])])], true) := by
  rfl

example :
    modify_workflow
      [("3", .obj [("class_type", .str "KSampler"),
                   ("inputs", .obj [("seed", .num 1), ("steps", .num 20)])])]
      "p" "n" (fun _ => 2 ^ 33 + 7) =
    some ([("3", .obj [("class_type", .str "KSampler"),
                       ("inputs", .obj [("seed", .num 7), ("steps", .num 20)])])],
          true) := by
  rfl

example :
    modify_workflow
      [("1", .obj [("class_type", .str "CLIPTextEncode"),
                   ("inputs", .obj [("text", .arr [.str "5", .num 0])])])]
      "p" "n" (fun _ => 0) = none := by
  rfl

/-! ## Lemmas about the watch loop -/

/-- With no more receive outcomes, the polling loop always ends at the
deadline. -/
theorem watchDrain_timedOut (T now : Nat) : watchDrain T now = .timedOut := by
  unfold watchDrain
  split
  · rfl
  · exact watchDrain_timedOut T (now + 5)
termination_by T + 1 - now
decreasing_by omega

/-- A message receive counts as non-terminal exactly when its processing
continues the loop. -/
theorem nonTerminal_msg (pid : String) (d : Nat) (raw : RawMsg)
    (h : nonTerminal pid (.msg d raw) = true) :
    handle_message pid raw = .cont := by
  simp only [nonTerminal] at h
  cases hh : handle_message pid raw <;> rw [hh] at h <;> simp_all

/-- If every receive outcome leaves the loop running, the watch ends at the
deadline, whatever the current clock. -/
theorem watchGo_nonterminal (pid : String) (T : Nat) :
    ∀ (events : List Recv) (now : Nat),
      (∀ e ∈ events, nonTerminal pid e = true) →
      watchGo pid T now events = .timedOut := by
  intro events
  induction events with
  | nil => intro now _; exact watchDrain_timedOut T now
  | cons e rest ih =>
    intro now h
    have he : nonTerminal pid e = true := h e (List.mem_cons_self e rest)
    have hrest : ∀ e' ∈ rest, nonTerminal pid e' = true :=
      fun e' h' => h e' (List.mem_cons_of_mem e h')
    cases e with
    | rto =>
      simp only [watchGo]
      split
      · rfl
      · exact ih (now + 5) hrest
    | msg d raw =>
      have hh := nonTerminal_msg pid d raw he
      simp only [watchGo, hh]
      split
      · rfl
      · exact ih (now + d) hrest

/-- A message that fails JSON parsing ends the watch with the WebSocket
error, provided the loop reaches it: all earlier outcomes leave the loop
running and the clock when its iteration starts is within the deadline. -/
theorem watchGo_invalid (pid : String) (T d : Nat) (rest : List Recv) :
    ∀ (pre : List Recv) (now : Nat),
      (∀ e ∈ pre, nonTerminal pid e = true) →
      now + elapsedOf pre ≤ T →
      watchGo pid T now (pre ++ .msg d .invalid :: rest) = .wsError := by
  intro pre
  induction pre with
  | nil =>
    intro now _ hT
    simp only [elapsedOf, Nat.add_zero] at hT
    simp only [List.nil_append, watchGo, handle_message]
    rw [if_neg (by omega)]
  | cons e pre' ih =>
    intro now h hT
    have he : nonTerminal pid e = true := h e (List.mem_cons_self e pre')
    have hpre : ∀ e' ∈ pre', nonTerminal pid e' = true :=
      fun e' h' => h e' (List.mem_cons_of_mem e h')
    cases e with
    | rto =>
      simp only [elapsedOf] at hT
      simp only [List.cons_append, watchGo]
      rw [if_neg (by omega)]
      exact ih (now + 5) hpre (by omega)
    | msg d' raw =>
      have hh := nonTerminal_msg pid d' raw he
      simp only [elapsedOf] at hT
      simp only [List.cons_append, watchGo, hh]
      rw [if_neg (by omega)]
      exact ih (now + d') hpre (by omega)

/-! ## Lemmas about dict update and the mutator loop -/

theorem lookup_setKey_eq (k : String) (v : JVal) :
    ∀ m : List (String × JVal), lookup (setKey m k v) k = some v := by
  intro m
  induction m with
  | nil => simp [setKey, lookup]
  | cons p rest ih =>
    obtain ⟨k', v'⟩ := p
    by_cases h : k' = k
    · simp [setKey, h, lookup]
    · simp [setKey, h, lookup, ih]

theorem lookup_setKey_ne (k k' : String) (v : JVal) (hk : k' ≠ k) :
    ∀ m : List (String × JVal), lookup (setKey m k v) k' = lookup m k' := by
  intro m
  have h1 : ¬ k = k' := fun hh => hk hh.symm
  induction m with
  | nil => simp [setKey, lookup, h1]
  | cons p rest ih =>
    obtain ⟨k0, v0⟩ := p
    by_cases h : k0 = k
    · have h2 : ¬ k0 = k' := fun hh => h1 (h.symm.trans hh)
      simp [setKey, h, lookup, h1, h2]
    · simp only [setKey, if_neg h, lookup]
      rw [ih]

theorem modifyGo_md_true (pos neg : String) (rands : Nat → Nat) :
    ∀ (wf : List (String × JVal)) (k : Nat) (out : List (String × JVal))
      (mdf : Bool),
      modifyGo pos neg rands k true wf = some (out, mdf) → mdf = true := by
  intro wf
  induction wf with
  | nil =>
    intro k out mdf h
    simp only [modifyGo, Option.some.injEq, Prod.mk.injEq] at h
    exact h.2.symm
  | cons p rest ih =>
    obtain ⟨nid, nd⟩ := p
    intro k out mdf h
    simp only [modifyGo, Bool.true_or] at h
    split at h
    · exact absurd h (by simp)
    · split at h
      · exact absurd h (by simp)
      · next rest' mdf' hg =>
        simp only [Option.some.injEq, Prod.mk.injEq] at h
        rw [← h.2]
        exact ih _ rest' mdf' hg

/-- Inversion of the mutator loop at one index: the output entry at `i` is
the node transformation of the input entry at `i` (for some uuid draw
count), and a node that sets the `modified` flag forces the final flag. -/
theorem modifyGo_get (pos neg : String) (rands : Nat → Nat) :
    ∀ (wf : List (String × JVal)) (k : Nat) (md : Bool)
      (out : List (String × JVal)) (mdf : Bool) (i : Nat) (nid : String)
      (nd : JVal),
      modifyGo pos neg rands k md wf = some (out, mdf) →
      wf.get? i = some (nid, nd) →
      ∃ k1 nd' b k2, modifyNode pos neg rands k1 nd = some (nd', b, k2) ∧
        out.get? i = some (nid, nd') ∧ (b = true → mdf = true) := by
  intro wf
  induction wf with
  | nil => intro k md out mdf i nid nd _ hi; simp at hi
  | cons p rest ih =>
    obtain ⟨nid0, nd0⟩ := p
    intro k md out mdf i nid nd h hi
    simp only [modifyGo] at h
    split at h
    · exact absurd h (by simp)
    · next nd0' b0 k' hn =>
      split at h
      · exact absurd h (by simp)
      · next rest' mdf' hg =>
        simp only [Option.some.injEq, Prod.mk.injEq] at h
        obtain ⟨hout, hmdf⟩ := h
        cases i with
        | zero =>
          simp only [List.get?, Option.some.injEq, Prod.mk.injEq] at hi
          obtain ⟨rfl, rfl⟩ := hi
          refine ⟨k, nd0', b0, k', hn, ?_, ?_⟩
          · rw [← hout]; rfl
          · intro hb
            rw [← hmdf]
            rw [hb, Bool.or_true] at hg
            exact modifyGo_md_true pos neg rands rest k' rest' mdf' hg
        | succ j =>
          simp only [List.get?] at hi
          obtain ⟨k1, nd', b, k2, h1, h2, h3⟩ :=
            ih k' (md || b0) rest' mdf' j nid nd hg hi
          refine ⟨k1, nd', b, k2, h1, ?_, fun hb => hmdf ▸ h3 hb⟩
          rw [← hout]
          exact h2

/-- The mutator preserves the sequence of node identifiers. -/
theorem modifyGo_fst (pos neg : String) (rands : Nat → Nat) :
    ∀ (wf : List (String × JVal)) (k : Nat) (md : Bool)
      (out : List (String × JVal)) (mdf : Bool),
      modifyGo pos neg rands k md wf = some (out, mdf) →
      out.map Prod.fst = wf.map Prod.fst := by
  intro wf
  induction wf with
  | nil =>
    intro k md out mdf h
    simp only [modifyGo, Option.some.injEq, Prod.mk.injEq] at h
    rw [← h.1]
  | cons p rest ih =>
    obtain ⟨nid0, nd0⟩ := p
    intro k md out mdf h
    simp only [modifyGo] at h
    split at h
    · exact absurd h (by simp)
    · next nd0' b0 k' hn =>
      split at h
      · exact absurd h (by simp)
      · next rest' mdf' hg =>
        simp only [Option.some.injEq, Prod.mk.injEq] at h
        rw [← h.1]
        simp only [List.map_cons]
        rw [ih k' (md || b0) rest' mdf' hg]

/-! ## Frame property of the mutator -/

/-- The test `class_type = node_data.get("class_type", ""); class_type == s`. -/
def isCT (m : List (String × JVal)) (s : String) : Bool :=
  jvalIsStr ((lookup m "class_type").getD (.str "")) s

/-- Frame relation for a text-encoding or sampler node with field `key`
("text" or "seed") written: all node fields other than `inputs` keep their
values, and inside the `inputs` dict all keys other than `key` keep their
values.  Nodes whose `inputs` key is absent are unchanged; an `inputs` value
that is neither absent nor a dict never survives mutation, so nothing is
asserted about it. -/
def objFrame (key : String) (m : List (String × JVal)) (nd' : JVal) : Prop :=
  (lookup m "inputs" = none → nd' = .obj m) ∧
  (∀ im, lookup m "inputs" = some (.obj im) →
    ∃ m' im', nd' = .obj m' ∧
      (∀ k, k ≠ "inputs" → lookup m' k = lookup m k) ∧
      lookup m' "inputs" = some (.obj im') ∧
      (∀ k, k ≠ key → lookup im' k = lookup im k))

/-- Frame relation between an input node value and the corresponding output
node value of the mutator: text-encoding nodes may change only the `text`
input, sampler nodes only the `seed` input, and every other node value is
unchanged. -/
def nodeFrame (nd nd' : JVal) : Prop :=
  (∀ m, nd = .obj m →
    (isCT m "CLIPTextEncode" = true → objFrame "text" m nd') ∧
    (isCT m "CLIPTextEncode" = false → isCT m "KSampler" = true →
      objFrame "seed" m nd') ∧
    (isCT m "CLIPTextEncode" = false → isCT m "KSampler" = false →
      nd' = nd)) ∧
  ((∀ m, nd ≠ .obj m) → nd' = nd)

theorem modifyNode_frame (pos neg : String) (rands : Nat → Nat) (k : Nat)
    (nd nd' : JVal) (b : Bool) (k2 : Nat)
    (h : modifyNode pos neg rands k nd = some (nd', b, k2)) :
    nodeFrame nd nd' := by
  cases nd with
  | obj m =>
    refine ⟨?_, fun hno => absurd rfl (hno m)⟩
    intro m2 hm2
    have hm2' : m = m2 := by injection hm2
    subst hm2'
    simp only [modifyNode] at h
    by_cases hc :
        jvalIsStr ((lookup m "class_type").getD (.str "")) "CLIPTextEncode" = true
    · rw [if_pos hc] at h
      refine ⟨?_, ?_, ?_⟩
      · intro _
        constructor
        · intro hi
          rw [hi] at h
          dsimp only at h
          simp only [Option.some.injEq, Prod.mk.injEq] at h
          exact h.1.symm
        · intro im hi
          rw [hi] at h
          dsimp only at h
          cases ht : textOf (lookup im "text") with
          | none => rw [ht] at h; dsimp only at h; exact absurd h (by simp)
          | some s =>
            rw [ht] at h
            dsimp only at h
            simp only [Option.some.injEq, Prod.mk.injEq] at h
            refine ⟨setKey m "inputs"
                (.obj (setKey im "text"
                  (.str (if isNegText s then neg else pos)))),
              setKey im "text" (.str (if isNegText s then neg else pos)),
              h.1.symm, ?_, lookup_setKey_eq _ _ _, ?_⟩
            · intro k3 hk; exact lookup_setKey_ne _ k3 _ hk m
            · intro k3 hk; exact lookup_setKey_ne _ k3 _ hk im
      · intro hcf _
        simp only [isCT] at hcf
        rw [hcf] at hc
        exact absurd hc (by simp)
      · intro hcf _
        simp only [isCT] at hcf
        rw [hcf] at hc
        exact absurd hc (by simp)
    · rw [if_neg hc] at h
      by_cases hs :
          jvalIsStr ((lookup m "class_type").getD (.str "")) "KSampler" = true
      · rw [if_pos hs] at h
        refine ⟨?_, ?_, ?_⟩
        · intro hct
          simp only [isCT] at hct
          exact absurd hct hc
        · intro _ _
          constructor
          · intro hi
            rw [hi] at h
            dsimp only at h
            simp only [Option.some.injEq, Prod.mk.injEq] at h
            exact h.1.symm
          · intro im hi
            rw [hi] at h
            dsimp only at h
            simp only [Option.some.injEq, Prod.mk.injEq] at h
            refine ⟨setKey m "inputs"
                (.obj (setKey im "seed" (.num (Int.ofNat (rands k % 2 ^ 32))))),
              setKey im "seed" (.num (Int.ofNat (rands k % 2 ^ 32))),
              h.1.symm, ?_, lookup_setKey_eq _ _ _, ?_⟩
            · intro k3 hk; exact lookup_setKey_ne _ k3 _ hk m
            · intro k3 hk; exact lookup_setKey_ne _ k3 _ hk im
        · intro _ hsf
          simp only [isCT] at hsf
          rw [hsf] at hs
          exact absurd hs (by simp)
      · rw [if_neg hs] at h
        simp only [Option.some.injEq, Prod.mk.injEq] at h
        refine ⟨?_, ?_, fun _ _ => h.1.symm⟩
        · intro hct
          simp only [isCT] at hct
          exact absurd hct hc
        · intro _ hst
          simp only [isCT] at hst
          exact absurd hst hs
  | null =>
    simp only [modifyNode, Option.some.injEq, Prod.mk.injEq] at h
    exact ⟨fun m hm => absurd hm (by simp), fun _ => h.1.symm⟩
  | bool c =>
    simp only [modifyNode, Option.some.injEq, Prod.mk.injEq] at h
    exact ⟨fun m hm => absurd hm (by simp), fun _ => h.1.symm⟩
  | num n =>
    simp only [modifyNode, Option.some.injEq, Prod.mk.injEq] at h
    exact ⟨fun m hm => absurd hm (by simp), fun _ => h.1.symm⟩
  | str t =>
    simp only [modifyNode, Option.some.injEq, Prod.mk.injEq] at h
    exact ⟨fun m hm => absurd hm (by simp), fun _ => h.1.symm⟩
  | arr l =>
    simp only [modifyNode, Option.some.injEq, Prod.mk.injEq] at h
    exact ⟨fun m hm => absurd hm (by simp), fun _ => h.1.symm⟩
/-! ## Substring lemmas for the stored-artifact path -/

theorem listIsPre_append {α : Type} [DecidableEq α] (s t : List α) :
    listIsPre s (s ++ t) = true := by
  induction s with
  | nil => rfl
  | cons a as ih => simp [listIsPre, ih]

theorem listHasSub_here {α : Type} [DecidableEq α] (s t : List α) :
    listHasSub s (s ++ t) = true := by
  cases hst : s ++ t with
  | nil =>
    have hs : s = [] := (List.append_eq_nil.mp hst).1
    subst hs
    rfl
  | cons a rest =>
    simp only [listHasSub]
    rw [← hst, listIsPre_append]
    rfl

theorem listHasSub_append_left {α : Type} [DecidableEq α] (s l : List α)
    (h : listHasSub s l = true) :
    ∀ a : List α, listHasSub s (a ++ l) = true := by
  intro a
  induction a with
  | nil => simpa
  | cons x xs ih =>
    have hstep : listHasSub s ((x :: xs) ++ l) =
        (listIsPre s ((x :: xs) ++ l) || listHasSub s (xs ++ l)) := by
      rw [List.cons_append]
      rfl
    rw [hstep, ih]
    simp

theorem strToList_append (a b : String) :
    (a ++ b).toList = a.toList ++ b.toList :=
  String.data_append a b

/-- The stored path `output_dir/{pid}_{filename}` contains both the job
identifier and the artifact filename as substrings. -/
theorem containsSub_path (dirStr pid fn : String) :
    containsSub (dirStr ++ "/" ++ pid ++ "_" ++ fn) pid = true ∧
    containsSub (dirStr ++ "/" ++ pid ++ "_" ++ fn) fn = true := by
  constructor
  · unfold containsSub
    have hl : (dirStr ++ "/" ++ pid ++ "_" ++ fn).toList =
        (dirStr.toList ++ "/".toList) ++
          (pid.toList ++ ("_".toList ++ fn.toList)) := by
      simp [strToList_append]
    rw [hl]
    exact listHasSub_append_left _ _ (listHasSub_here _ _) _
  · unfold containsSub
    have hl : (dirStr ++ "/" ++ pid ++ "_" ++ fn).toList =
        (dirStr.toList ++ "/".toList ++ pid.toList ++ "_".toList) ++
          (fn.toList ++ []) := by
      simp [strToList_append]
    rw [hl]
    exact listHasSub_append_left _ _ (listHasSub_here _ _) _

/-! ## Claim theorems -/

/-- C1: processing one received event while watching job `pid`: an
`"executing"` event whose payload names `pid` with an absent/null node
completes the watch (True returned); an `"executing"` event for `pid` with a
non-null node continues watching; an `"execution_error"` event naming `pid`
fails the watch carrying the error payload; an `"execution_error"` event for
a different job, and any event with any other tag, is ignored and watching
continues.  The last three conjuncts lift the step outcome to the watch
loop: a completing step returns success, a failing step returns the failure,
and a continuing step proceeds to the next event. -/
theorem C1_watcher_event_dispatch (pid t q : String) (d T now : Nat)
    (raw : RawMsg) (rest : List Recv)
    (m em : List (String × JVal)) (v : JVal) :
    (pyGet m "type" = some (.str "executing") →
      lookup m "data" = some (.obj em) →
      pyGet em "prompt_id" = some (.str pid) →
      pyGet em "node" = none →
      handle_message pid (.json (.obj m)) = .completed) ∧
    (pyGet m "type" = some (.str "executing") →
      lookup m "data" = some (.obj em) →
      pyGet em "prompt_id" = some (.str pid) →
      pyGet em "node" = some v →
      handle_message pid (.json (.obj m)) = .cont) ∧
    (pyGet m "type" = some (.str "execution_error") →
      lookup m "data" = some (.obj em) →
      pyGet em "prompt_id" = some (.str pid) →
      handle_message pid (.json (.obj m)) = .failed (.obj em)) ∧
    (pyGet m "type" = some (.str "execution_error") →
      lookup m "data" = some (.obj em) →
      pyGet em "prompt_id" = some (.str q) → q ≠ pid →
      handle_message pid (.json (.obj m)) = .cont) ∧
    (pyGet m "type" = some (.str t) →
      t ≠ "executing" → t ≠ "execution_error" →
      handle_message pid (.json (.obj m)) = .cont) ∧
    (handle_message pid raw = .completed → now ≤ T →
      watchGo pid T now (.msg d raw :: rest) = .completed) ∧
    (∀ p, handle_message pid raw = .failed p → now ≤ T →
      watchGo pid T now (.msg d raw :: rest) = .failed p) ∧
    (handle_message pid raw = .cont → now ≤ T →
      watchGo pid T now (.msg d raw :: rest) = watchGo pid T (now + d) rest) := by
  refine ⟨?_, ?_, ?_, ?_, ?_, ?_, ?_, ?_⟩
  · intro h1 h2 h3 h4
    simp [handle_message, pyEqStr, h1, h2, h3, h4]
  · intro h1 h2 h3 h4
    simp [handle_message, pyEqStr, h1, h2, h3, h4]
  · intro h1 h2 h3
    simp [handle_message, pyEqStr, h1, h2, h3]
  · intro h1 h2 h3 hq
    simp [handle_message, pyEqStr, h1, h2, h3, hq]
  · intro h1 ht1 ht2
    simp [handle_message, pyEqStr, h1, ht1, ht2]
  · intro hc hT
    simp only [watchGo, hc]
    rw [if_neg (by omega)]
  · intro p hc hT
    simp only [watchGo, hc]
    rw [if_neg (by omega)]
  · intro hc hT
    simp only [watchGo, hc]
    rw [if_neg (by omega)]

/-- Witness for C1 at concrete events: each conjunct of the dispatch theorem
instantiated and its hypotheses discharged. -/
theorem C1_witness :
    handle_message "J" (.json (.obj [("type", .str "executing"),
        ("data", .obj [("prompt_id", .str "J")])])) = .completed ∧
    handle_message "J" (.json (.obj [("type", .str "executing"),
        ("data", .obj [("prompt_id", .str "J"), ("node", .str "7")])])) = .cont ∧
    handle_message "J" (.json (.obj [("type", .str "execution_error"),
        ("data", .obj [("prompt_id", .str "J"), ("msg", .str "boom")])])) =
      .failed (.obj [("prompt_id", .str "J"), ("msg", .str "boom")]) ∧
    handle_message "J" (.json (.obj [("type", .str "execution_error"),
        ("data", .obj [("prompt_id", .str "K")])])) = .cont ∧
    handle_message "J" (.json (.obj [("type", .str "status")])) = .cont ∧
    watchGo "J" 300 0 [.msg 1 (.json (.obj [("type", .str "executing"),
        ("data", .obj [("prompt_id", .str "J")])]))] = .completed := by
  refine ⟨?_, ?_, ?_, ?_, ?_, ?_⟩
  · exact (C1_watcher_event_dispatch "J" "x" "x" 0 0 0 .invalid []
      [("type", .str "executing"), ("data", .obj [("prompt_id", .str "J")])]
      [("prompt_id", .str "J")] .null).1 rfl rfl rfl rfl
  · exact (C1_watcher_event_dispatch "J" "x" "x" 0 0 0 .invalid []
      [("type", .str "executing"),
       ("data", .obj [("prompt_id", .str "J"), ("node", .str "7")])]
      [("prompt_id", .str "J"), ("node", .str "7")] (.str "7")).2.1
      rfl rfl rfl rfl
  · exact (C1_watcher_event_dispatch "J" "x" "x" 0 0 0 .invalid []
      [("type", .str "execution_error"),
       ("data", .obj [("prompt_id", .str "J"), ("msg", .str "boom")])]
      [("prompt_id", .str "J"), ("msg", .str "boom")] .null).2.2.1 rfl rfl rfl
  · exact (C1_watcher_event_dispatch "J" "x" "K" 0 0 0 .invalid []
      [("type", .str "execution_error"),
       ("data", .obj [("prompt_id", .str "K")])]
      [("prompt_id", .str "K")] .null).2.2.2.1 rfl rfl rfl (by decide)
  · exact (C1_watcher_event_dispatch "J" "status" "x" 0 0 0 .invalid []
      [("type", .str "status")] [] .null).2.2.2.2.1 rfl (by decide) (by decide)
  · exact (C1_watcher_event_dispatch "J" "x" "x" 1 300 0
      (.json (.obj [("type", .str "executing"),
        ("data", .obj [("prompt_id", .str "J")])])) []
      [] [] .null).2.2.2.2.2.1 rfl (by omega)

/-- C2: if no terminating event arrives (every receive outcome is a
per-receive timeout or a message whose processing continues the loop), the
watch ends in the 504 timeout, for any deadline and any number of events:
non-terminal events never reset or extend the deadline, and per-receive
timeouts are no-op polls, not failures. -/
theorem C2_watch_deadline (pid : String) (T : Nat) (events : List Recv)
    (h : ∀ e ∈ events, nonTerminal pid e = true) :
    wait_for_completion pid T events = .timedOut :=
  watchGo_nonterminal pid T events 0 h

/-- Witness for C2: a stream of one poll timeout, one unrelated event and one
still-running executing event, against the default 300-unit deadline. -/
theorem C2_witness :
    wait_for_completion "J" 300
      [.rto,
       .msg 2 (.json (.obj [("type", .str "status")])),
       .msg 3 (.json (.obj [("type", .str "executing"),
         ("data", .obj [("prompt_id", .str "J"), ("node", .str "5")])]))] =
      .timedOut :=
  C2_watch_deadline "J" 300 _ (by decide)

/-- C10: a received event-stream message that fails JSON parsing is not
ignored: once the loop reaches it (all earlier outcomes non-terminal, clock
within the deadline), the watch aborts with the WebSocket error rather than
continuing to later events. -/
theorem C10_invalid_json_aborts (pid : String) (T d : Nat)
    (pre rest : List Recv)
    (h1 : ∀ e ∈ pre, nonTerminal pid e = true)
    (h2 : elapsedOf pre ≤ T) :
    wait_for_completion pid T (pre ++ .msg d .invalid :: rest) = .wsError :=
  watchGo_invalid pid T d rest pre 0 h1 (by simpa using h2)

/-- Witness for C10: an invalid message after one poll timeout aborts the
watch even though further events follow. -/
theorem C10_witness :
    wait_for_completion "J" 300 ([.rto] ++ .msg 1 .invalid :: [.rto]) =
      .wsError :=
  C10_invalid_json_aborts "J" 300 1 [.rto] [.rto] (by decide) (by decide)

/-- C3: every text-encoding node whose current text contains "negative" or
"bad" (case-insensitively) receives the negative prompt, every other
text-encoding node the positive prompt; in particular the two-node template
with placeholders "bad hands, blurry" and "a photo of a cat", mutated with
positive "A" and negative "B", yields texts "B" and "A". -/
theorem C3_prompt_classification (wf out : List (String × JVal))
    (pos neg : String) (rands : Nat → Nat) (md : Bool) (i : Nat)
    (nid s : String) (m im : List (String × JVal)) :
    (wf.get? i = some (nid, .obj m) →
      lookup m "class_type" = some (.str "CLIPTextEncode") →
      lookup m "inputs" = some (.obj im) →
      lookup im "text" = some (.str s) →
      modify_workflow wf pos neg rands = some (out, md) →
      ∃ m' im', out.get? i = some (nid, .obj m') ∧
        lookup m' "inputs" = some (.obj im') ∧
        lookup im' "text" = some (.str (if isNegText s then neg else pos))) ∧
    modify_workflow
      [("6", .obj [("class_type", .str "CLIPTextEncode"),
                   ("inputs", .obj [("text", .str "bad hands, blurry")])]),
       ("5", .obj [("class_type", .str "CLIPTextEncode"),
                   ("inputs", .obj [("text", .str "a photo of a cat")])])]
      "A" "B" (fun _ => 0) =
    some ([("6", .obj [("class_type", .str "CLIPTextEncode"),
                       ("inputs", .obj [("text", .str "B")])]),
           ("5", .obj [("class_type", .str "CLIPTextEncode"),
                       ("inputs", .obj [("text", .str "A")])])], true) := by
  constructor
  · intro h1 h2 h3 h4 h5
    obtain ⟨k1, nd', b, k2, hn, hout, _⟩ :=
      modifyGo_get pos neg rands wf 0 false out md i nid (.obj m) h5 h1
    simp [modifyNode, h2, h3, h4, jvalIsStr, textOf] at hn
    refine ⟨setKey m "inputs"
        (.obj (setKey im "text" (.str (if isNegText s then neg else pos)))),
      setKey im "text" (.str (if isNegText s then neg else pos)),
      ?_, lookup_setKey_eq _ _ _, lookup_setKey_eq _ _ _⟩
    rw [← hn.1] at hout
    exact hout
  · rfl

/-- Witness for C3: the classification applied at the "bad hands, blurry"
node of the two-node template. -/
theorem C3_witness :
    ∃ m' im',
      ([("6", JVal.obj [("class_type", .str "CLIPTextEncode"),
                        ("inputs", .obj [("text", .str "B")])]),
        ("5", JVal.obj [("class_type", .str "CLIPTextEncode"),
                        ("inputs", .obj [("text", .str "A")])])] :
        List (String × JVal)).get? 0 = some ("6", .obj m') ∧
      lookup m' "inputs" = some (.obj im') ∧
      lookup im' "text" =
        some (.str (if isNegText "bad hands, blurry" then "B" else "A")) :=
  (C3_prompt_classification
    [("6", .obj [("class_type", .str "CLIPTextEncode"),
                 ("inputs", .obj [("text", .str "bad hands, blurry")])]),
     ("5", .obj [("class_type", .str "CLIPTextEncode"),
                 ("inputs", .obj [("text", .str "a photo of a cat")])])]
    [("6", .obj [("class_type", .str "CLIPTextEncode"),
                 ("inputs", .obj [("text", .str "B")])]),
     ("5", .obj [("class_type", .str "CLIPTextEncode"),
                 ("inputs", .obj [("text", .str "A")])])]
    "A" "B" (fun _ => 0) true 0 "6" "bad hands, blurry"
    [("class_type", .str "CLIPTextEncode"),
     ("inputs", .obj [("text", .str "bad hands, blurry")])]
    [("text", .str "bad hands, blurry")]).1 rfl rfl rfl rfl rfl

/-- C4: mutation leaves the sequence (hence the set) of node identifiers
unchanged, and relates every input node to its output node by the frame
relation: only the `text` input of text-encoding nodes and the `seed` input
of sampler nodes may change; every other field of those nodes, and every
other node, is unchanged. -/
theorem C4_mutator_frame (wf out : List (String × JVal)) (pos neg : String)
    (rands : Nat → Nat) (md : Bool)
    (h : modify_workflow wf pos neg rands = some (out, md)) :
    out.map Prod.fst = wf.map Prod.fst ∧
    ∀ i nid nd, wf.get? i = some (nid, nd) →
      ∃ nd', out.get? i = some (nid, nd') ∧ nodeFrame nd nd' := by
  constructor
  · exact modifyGo_fst pos neg rands wf 0 false out md h
  · intro i nid nd hi
    obtain ⟨k1, nd', b, k2, hn, hout, _⟩ :=
      modifyGo_get pos neg rands wf 0 false out md i nid nd h hi
    exact ⟨nd', hout, modifyNode_frame pos neg rands k1 nd nd' b k2 hn⟩

/-- Witness for C4: identifier preservation on a three-node graph holding a
text-encoding node, a sampler node and an unrelated decoder node. -/
theorem C4_witness :
    ([("1", JVal.obj [("class_type", .str "CLIPTextEncode"),
                      ("inputs", .obj [("text", .str "P"), ("clip", .str "c")])]),
      ("2", JVal.obj [("class_type", .str "KSampler"),
                      ("inputs", .obj [("seed", .num 5), ("steps", .num 20)])]),
      ("3", JVal.obj [("class_type", .str "VAEDecode")])] :
      List (String × JVal)).map Prod.fst =
    ([("1", JVal.obj [("class_type", .str "CLIPTextEncode"),
                      ("inputs", .obj [("text", .str "nice"), ("clip", .str "c")])]),
      ("2", JVal.obj [("class_type", .str "KSampler"),
                      ("inputs", .obj [("seed", .num 1), ("steps", .num 20)])]),
      ("3", JVal.obj [("class_type", .str "VAEDecode")])] :
      List (String × JVal)).map Prod.fst :=
  (C4_mutator_frame
    [("1", .obj [("class_type", .str "CLIPTextEncode"),
                 ("inputs", .obj [("text", .str "nice"), ("clip", .str "c")])]),
     ("2", .obj [("class_type", .str "KSampler"),
                 ("inputs", .obj [("seed", .num 1), ("steps", .num 20)])]),
     ("3", .obj [("class_type", .str "VAEDecode")])]
    [("1", .obj [("class_type", .str "CLIPTextEncode"),
                 ("inputs", .obj [("text", .str "P"), ("clip", .str "c")])]),
     ("2", .obj [("class_type", .str "KSampler"),
                 ("inputs", .obj [("seed", .num 5), ("steps", .num 20)])]),
     ("3", .obj [("class_type", .str "VAEDecode")])]
    "P" "N" (fun _ => 5) true rfl).1

/-- C5: the seed written into every mutated sampler node is the uuid integer
reduced modulo 2^32, hence always within the unsigned 32-bit range. -/
theorem C5_seed_range (wf out : List (String × JVal)) (pos neg : String)
    (rands : Nat → Nat) (md : Bool) (i : Nat) (nid : String)
    (m im : List (String × JVal))
    (h1 : wf.get? i = some (nid, .obj m))
    (h2 : lookup m "class_type" = some (.str "KSampler"))
    (h3 : lookup m "inputs" = some (.obj im))
    (h4 : modify_workflow wf pos neg rands = some (out, md)) :
    ∃ m' im' v, out.get? i = some (nid, .obj m') ∧
      lookup m' "inputs" = some (.obj im') ∧
      lookup im' "seed" = some (.num v) ∧ 0 ≤ v ∧ v < 2 ^ 32 := by
  obtain ⟨k1, nd', b, k2, hn, hout, _⟩ :=
    modifyGo_get pos neg rands wf 0 false out md i nid (.obj m) h4 h1
  simp [modifyNode, h2, h3, jvalIsStr] at hn
  refine ⟨setKey m "inputs"
      (.obj (setKey im "seed" (.num (Int.ofNat (rands k1 % 2 ^ 32))))),
    setKey im "seed" (.num (Int.ofNat (rands k1 % 2 ^ 32))),
    Int.ofNat (rands k1 % 2 ^ 32),
    ?_, lookup_setKey_eq _ _ _, lookup_setKey_eq _ _ _, ?_, ?_⟩
  · rw [← hn.1] at hout
    exact hout
  · exact Int.ofNat_nonneg _
  · have hlt : rands k1 % 2 ^ 32 < 2 ^ 32 := Nat.mod_lt _ (by norm_num)
    have hlt2 : Int.ofNat (rands k1 % 2 ^ 32) < Int.ofNat (2 ^ 32) :=
      Int.ofNat_lt.mpr hlt
    have hpow : Int.ofNat (2 ^ 32) = (2 : Int) ^ 32 := by decide
    rw [hpow] at hlt2
    exact hlt2

/-- Witness for C5: a single sampler node with uuid integer 2^33 + 7 receives
seed 7, inside the 32-bit range. -/
theorem C5_witness :
    ∃ m' im' v,
      ([("3", JVal.obj [("class_type", .str "KSampler"),
          ("inputs", .obj [("seed", .num 7), ("steps", .num 20)])])] :
        List (String × JVal)).get? 0 = some ("3", .obj m') ∧
      lookup m' "inputs" = some (.obj im') ∧
      lookup im' "seed" = some (.num v) ∧ 0 ≤ v ∧ v < 2 ^ 32 :=
  C5_seed_range
    [("3", .obj [("class_type", .str "KSampler"),
                 ("inputs", .obj [("seed", .num 1), ("steps", .num 20)])])]
    [("3", .obj [("class_type", .str "KSampler"),
                 ("inputs", .obj [("seed", .num 7), ("steps", .num 20)])])]
    "p" "n" (fun _ => 2 ^ 33 + 7) true 0 "3"
    [("class_type", .str "KSampler"),
     ("inputs", .obj [("seed", .num 1), ("steps", .num 20)])]
    [("seed", .num 1), ("steps", .num 20)]
    rfl rfl rfl (by rfl)

/-- C8: a text-encoding or sampler node without an `inputs` mapping is
returned unchanged (the written value lands in the discarded `.get` default
dict), yet the node still sets the modified flag, so the missing-nodes
warning is not raised. -/
theorem C8_missing_inputs (wf out : List (String × JVal)) (pos neg : String)
    (rands : Nat → Nat) (md : Bool) (i : Nat) (nid ct : String)
    (m : List (String × JVal))
    (h1 : wf.get? i = some (nid, .obj m))
    (h2 : lookup m "class_type" = some (.str ct))
    (h3 : ct = "CLIPTextEncode" ∨ ct = "KSampler")
    (h4 : lookup m "inputs" = none)
    (h5 : modify_workflow wf pos neg rands = some (out, md)) :
    out.get? i = some (nid, .obj m) ∧ md = true ∧
    missingNodesWarning wf pos neg rands = false := by
  obtain ⟨k1, nd', b, k2, hn, hout, hb⟩ :=
    modifyGo_get pos neg rands wf 0 false out md i nid (.obj m) h5 h1
  have hmd : JVal.obj m = nd' ∧ md = true := by
    rcases h3 with h3 | h3 <;> subst h3
    · simp [modifyNode, h2, h4, jvalIsStr] at hn
      exact ⟨hn.1, hb hn.2.1⟩
    · simp [modifyNode, h2, h4, jvalIsStr] at hn
      exact ⟨hn.1, hb hn.2.1⟩
  refine ⟨?_, hmd.2, ?_⟩
  · rw [← hmd.1] at hout
    exact hout
  · simp [missingNodesWarning, h5, hmd.2]

/-- Witness for C8: a text-encoding node with no `inputs` key is unchanged
and suppresses the warning. -/
theorem C8_witness :
    ([("9", JVal.obj [("class_type", .str "CLIPTextEncode")])] :
      List (String × JVal)).get? 0 =
      some ("9", .obj [("class_type", .str "CLIPTextEncode")]) ∧
    true = true ∧
    missingNodesWarning [("9", .obj [("class_type", .str "CLIPTextEncode")])]
      "p" "n" (fun _ => 0) = false :=
  C8_missing_inputs
    [("9", .obj [("class_type", .str "CLIPTextEncode")])]
    [("9", .obj [("class_type", .str "CLIPTextEncode")])]
    "p" "n" (fun _ => 0) true 0 "9" "CLIPTextEncode"
    [("class_type", .str "CLIPTextEncode")]
    rfl rfl (Or.inl rfl) rfl rfl

/-- C9: the mutator is not total when a text-encoding node's `text` input
holds a non-string value: on this graph, whose text input is a node
reference (a two-element array), `current_text.lower()` raises and no
mutated graph is returned. -/
theorem C9_nonstring_text_raises :
    modify_workflow
      [("1", .obj [("class_type", .str "CLIPTextEncode"),
                   ("inputs", .obj [("text", .arr [.str "5", .num 0])])])]
      "p" "n" (fun _ => 0) = none :=
  rfl

/-- If every recorded output is a dict whose `images` key is absent or an
empty list, the scan finds no image. -/
theorem firstImage_none :
    ∀ os : List (String × JVal),
      (∀ p ∈ os, ∃ om, p.2 = .obj om ∧
        (lookup om "images" = none ∨ lookup om "images" = some (.arr []))) →
      firstImage os = .ok none := by
  intro os
  induction os with
  | nil => intro _; rfl
  | cons p rest ih =>
    intro h
    obtain ⟨kk, vv⟩ := p
    obtain ⟨om, hom, hi⟩ := h (kk, vv) (List.mem_cons_self _ _)
    simp only at hom
    subst hom
    have hrest := ih (fun q hq => h q (List.mem_cons_of_mem _ hq))
    rcases hi with hi | hi
    · simp only [firstImage, hi]
      exact hrest
    · simp only [firstImage, hi]
      exact hrest

/-- Counterexample to C6 as stated: at a history whose first (and only)
image reference is the empty dict — a reference that certainly lacks a
filename — the program's `if not image_info:` truthiness check (line 203)
fires and the fetch fails with the 404 NotFound, not the InternalError the
claim asserts for a first reference lacking a filename. -/
theorem C6_counterexample :
    download_image "J" "out"
      (.ok (.obj [("J", .obj [("outputs",
        .obj [("9", .obj [("images", .arr [.obj []])])])])]))
      (.ok ()) = .error .notFound ∧
    Err.notFound ≠ Err.internalError :=
  ⟨rfl, by decide⟩

/-- C6 (amended): the Result Fetcher with job identifier `pid`: a history
without an entry for `pid` fails NotFound (404); an entry none of whose
outputs holds a non-empty image list fails NotFound; a falsy first image
reference (empty dict or string, zero, false, null) also fails NotFound via
the truthiness check on the scanned reference; a first image reference that
is a non-empty mapping without a `filename` fails InternalError (500);
otherwise the downloaded bytes are stored and the returned path contains
both the job identifier and the reference's filename (the artifact is named
`{pid}_{filename}`). -/
theorem C6_result_fetcher (pid dirStr fn : String)
    (hm em os fi : List (String × JVal)) (dl : Except Unit Unit) :
    (lookup hm pid = none →
      download_image pid dirStr (.ok (.obj hm)) dl = .error .notFound) ∧
    (lookup hm pid = some (.obj em) →
      (lookup em "outputs" = none ∨
        ∃ os2, lookup em "outputs" = some (.obj os2) ∧
          ∀ p ∈ os2, ∃ om, p.2 = .obj om ∧
            (lookup om "images" = none ∨
             lookup om "images" = some (.arr []))) →
      download_image pid dirStr (.ok (.obj hm)) dl = .error .notFound) ∧
    (lookup hm pid = some (.obj em) →
      lookup em "outputs" = some (.obj os) →
      ∀ v, firstImage os = .ok (some v) → pyFalsy (some v) = true →
      download_image pid dirStr (.ok (.obj hm)) dl = .error .notFound) ∧
    (lookup hm pid = some (.obj em) →
      lookup em "outputs" = some (.obj os) →
      firstImage os = .ok (some (.obj fi)) → fi ≠ [] →
      lookup fi "filename" = none →
      download_image pid dirStr (.ok (.obj hm)) dl = .error .internalError) ∧
    (lookup hm pid = some (.obj em) →
      lookup em "outputs" = some (.obj os) →
      firstImage os = .ok (some (.obj fi)) →
      lookup fi "filename" = some (.str fn) → fn ≠ "" →
      dl = .ok () →
      download_image pid dirStr (.ok (.obj hm)) dl =
        .ok (dirStr ++ "/" ++ pid ++ "_" ++ fn) ∧
      containsSub (dirStr ++ "/" ++ pid ++ "_" ++ fn) pid = true ∧
      containsSub (dirStr ++ "/" ++ pid ++ "_" ++ fn) fn = true) := by
  refine ⟨?_, ?_, ?_, ?_, ?_⟩
  · intro h
    simp [download_image, get_history, h]
  · intro hpid houts
    rcases houts with houts | ⟨os2, houts, himgs⟩
    · simp [download_image, get_history, hpid, houts, firstImage]
    · simp [download_image, get_history, hpid, houts, firstImage_none os2 himgs]
  · intro hpid houts v hfi hfv
    simp [download_image, get_history, hpid, houts, hfi, hfv]
  · intro hpid houts hfi hne hfn
    cases fi with
    | nil => exact absurd rfl hne
    | cons q fi' =>
      simp [download_image, get_history, hpid, houts, hfi, pyGet, pyFalsy, hfn]
  · intro hpid houts hfi hfn hne hdl
    subst hdl
    cases fi with
    | nil => simp [lookup] at hfn
    | cons q fi' =>
      refine ⟨?_, (containsSub_path dirStr pid fn).1,
        (containsSub_path dirStr pid fn).2⟩
      simp [download_image, get_history, hpid, houts, hfi, pyGet, pyFalsy, hfn,
        jstr, hne]

/-- Witness for C6: each conjunct at a concrete history.  The job "J" is
absent from the empty history; present with an output whose images list is
empty; present with a falsy first reference (the empty string); present with
a non-empty image reference lacking a filename; and present with the image
"fox.png", which is stored at a path containing "J" and "fox.png". -/
theorem C6_witness :
    download_image "J" "out" (.ok (.obj [])) (.ok ()) = .error .notFound ∧
    download_image "J" "out"
      (.ok (.obj [("J", .obj [("outputs",
        .obj [("9", .obj [("images", .arr [])])])])])) (.ok ()) =
      .error .notFound ∧
    download_image "J" "out"
      (.ok (.obj [("J", .obj [("outputs",
        .obj [("9", .obj [("images", .arr [.str ""])])])])])) (.ok ()) =
      .error .notFound ∧
    download_image "J" "out"
      (.ok (.obj [("J", .obj [("outputs",
        .obj [("9", .obj [("images",
          .arr [.obj [("subfolder", .str "")]])])])])])) (.ok ()) =
      .error .internalError ∧
    download_image "J" "out"
      (.ok (.obj [("J", .obj [("outputs",
        .obj [("9", .obj [("images",
          .arr [.obj [("filename", .str "fox.png")]])])])])])) (.ok ()) =
      .ok ("out" ++ "/" ++ "J" ++ "_" ++ "fox.png") := by
  refine ⟨?_, ?_, ?_, ?_, ?_⟩
  · exact (C6_result_fetcher "J" "out" "x" [] [] [] [] (.ok ())).1 rfl
  · exact (C6_result_fetcher "J" "out" "x"
      [("J", .obj [("outputs", .obj [("9", .obj [("images", .arr [])])])])]
      [("outputs", .obj [("9", .obj [("images", .arr [])])])]
      [] [] (.ok ())).2.1 rfl
      (Or.inr ⟨[("9", .obj [("images", .arr [])])], rfl, by
        intro p hp
        simp only [List.mem_singleton] at hp
        subst hp
        exact ⟨[("images", .arr [])], rfl, Or.inr rfl⟩⟩)
  · exact (C6_result_fetcher "J" "out" "x"
      [("J", .obj [("outputs", .obj [("9", .obj [("images",
        .arr [.str ""])])])])]
      [("outputs", .obj [("9", .obj [("images", .arr [.str ""])])])]
      [("9", .obj [("images", .arr [.str ""])])]
      [] (.ok ())).2.2.1 rfl rfl (.str "") rfl rfl
  · exact (C6_result_fetcher "J" "out" "x"
      [("J", .obj [("outputs", .obj [("9", .obj [("images",
        .arr [.obj [("subfolder", .str "")]])])])])]
      [("outputs", .obj [("9", .obj [("images",
        .arr [.obj [("subfolder", .str "")]])])])]
      [("9", .obj [("images", .arr [.obj [("subfolder", .str "")]])])]
      [("subfolder", .str "")] (.ok ())).2.2.2.1 rfl rfl rfl
      (List.cons_ne_nil _ _) rfl
  · exact ((C6_result_fetcher "J" "out" "fox.png"
      [("J", .obj [("outputs", .obj [("9", .obj [("images",
        .arr [.obj [("filename", .str "fox.png")]])])])])]
      [("outputs", .obj [("9", .obj [("images",
        .arr [.obj [("filename", .str "fox.png")]])])])]
      [("9", .obj [("images", .arr [.obj [("filename", .str "fox.png")]])])]
      [("filename", .str "fox.png")] (.ok ())).2.2.2.2 rfl rfl rfl rfl
      (by decide) rfl).1

/-- Counterexample to C7: a transport-level failure during the history query
makes the fetch fail with the 500 InternalError classification, which is not
the 503 ServiceUnavailable classification that a transport-level failure
during submission receives. -/
theorem C7_counterexample :
    download_image "J" "out" (.error ()) (.ok ()) = .error .internalError ∧
    get_history (.error ()) = (.error .internalError : Except Err JVal) ∧
    queue_prompt (.error ()) = .error .serviceUnavailable ∧
    Err.internalError ≠ Err.serviceUnavailable :=
  ⟨rfl, rfl, rfl, by decide⟩

/-- C7 (amended): a transport-level failure during submission is classified
ServiceUnavailable (503), while a transport-level failure during the history
query or the artifact download is classified InternalError (500) — a
different classification from submission. -/
theorem C7_transport_classification (pid dirStr fn : String)
    (dl : Except Unit Unit) (hm em os fi : List (String × JVal)) :
    queue_prompt (.error ()) = .error .serviceUnavailable ∧
    download_image pid dirStr (.error ()) dl = .error .internalError ∧
    (lookup hm pid = some (.obj em) →
      lookup em "outputs" = some (.obj os) →
      firstImage os = .ok (some (.obj fi)) →
      lookup fi "filename" = some (.str fn) → fn ≠ "" →
      download_image pid dirStr (.ok (.obj hm)) (.error ()) =
        .error .internalError) ∧
    Err.serviceUnavailable.status = 503 ∧ Err.internalError.status = 500 := by
  refine ⟨rfl, rfl, ?_, rfl, rfl⟩
  intro hpid houts hfi hfn hne
  cases fi with
  | nil => simp [lookup] at hfn
  | cons q fi' =>
    simp [download_image, get_history, hpid, houts, hfi, pyGet, pyFalsy, hfn,
      hne]

/-- Witness for the amended C7: the download-transport-failure conjunct at a
concrete one-image history. -/
theorem C7_witness :
    download_image "J" "out"
      (.ok (.obj [("J", .obj [("outputs", .obj [("9", .obj [("images",
        .arr [.obj [("filename", .str "fox.png")]])])])])]))
      (.error ()) = .error .internalError :=
  (C7_transport_classification "J" "out" "fox.png" (.error ())
    [("J", .obj [("outputs", .obj [("9", .obj [("images",
      .arr [.obj [("filename", .str "fox.png")]])])])])]
    [("outputs", .obj [("9", .obj [("images",
      .arr [.obj [("filename", .str "fox.png")]])])])]
    [("9", .obj [("images", .arr [.obj [("filename", .str "fox.png")]])])]
    [("filename", .str "fox.png")]).2.2.1 rfl rfl rfl rfl (by decide)
